import Mathlib

/-!
Shallow embedding of the Subscriber of `pkg/nats/subscriber.go`
(watermill-nats), together with theorems settling the claims about its
configuration defaulting and validation, its Subscribe loop, its
per-message ack coordination, and its Close protocol.

Durations are modelled as `Int` nanoseconds, matching Go `time.Duration`.
External effects (broker calls, logging, channel operations) are modelled
as explicit event lists; results of external calls (unmarshalling,
metadata reads, transport acks) are passed in as parameters.
-/

namespace WatermillNats

/-- Go `time.Duration`: a signed count of nanoseconds. -/
abbrev Duration := Int

/-- Go `time.Second` in nanoseconds. -/
def nsPerSecond : Duration := 1000000000

/-- Modelled from the spec: the value of the sentinel `StopTime` is defined in
a repository file (a delay-policy source) that is not part of the provided
sources; the spec describes it as the sentinel meaning "terminate the message;
do not redeliver", distinct from zero (zero means nack immediately), and the
subscriber source logs a Term as the "-1 NakDelay calculation", so the
sentinel is the duration -1. -/
def StopTime : Duration := -1

/-- The `Delay` policy contract: `WaitTime(numDelivered uint) time.Duration`. -/
abbrev Delay := Nat → Duration

/-- The subset of `nats.Msg` metadata read by the subscriber:
`Metadata().NumDelivered`. -/
structure MsgMetadata where
  numDelivered : Nat
  deriving DecidableEq, Repr

/-- The subset of a broker frame (`nats.Msg`) the coordinator inspects:
the reply subject and the result of the `Metadata()` accessor. -/
structure NatsMsg where
  reply : String
  metadataResult : Except String MsgMetadata

/-- The application message, as far as the coordinator looks at it. -/
structure WMessage where
  uuid : String
  deriving DecidableEq, Repr

/-- `SubscriberSubscriptionConfig` (subscriber.go lines 71-115), restricted to
the fields the subscriber logic reads.  Function-valued fields
(`Unmarshaler`, `SubjectCalculator`) are tracked by nil-ness where only their
presence matters; the `NakDelay` policy is kept as a function option because
its results matter. -/
structure SubscriberSubscriptionConfig where
  queueGroup : String
  subscribersCount : Int
  ackWaitTimeout : Duration
  closeTimeout : Duration
  subscribeTimeout : Duration
  hasUnmarshaler : Bool
  hasSubjectCalculator : Bool
  ackSync : Bool
  nakDelay : Option Delay
  jetStreamEnabled : Bool

/-- `setDefaults` (subscriber.go lines 133-154): non-positive counts and
timeouts get defaults; a nil unmarshaler becomes `NATSMarshaler`; a nil
subject calculator becomes `DefaultSubjectCalculator`. -/
def setDefaults (c : SubscriberSubscriptionConfig) : SubscriberSubscriptionConfig :=
  { c with
    subscribersCount := if c.subscribersCount ≤ 0 then 1 else c.subscribersCount
    closeTimeout := if c.closeTimeout ≤ 0 then 30 * nsPerSecond else c.closeTimeout
    ackWaitTimeout := if c.ackWaitTimeout ≤ 0 then 30 * nsPerSecond else c.ackWaitTimeout
    subscribeTimeout := if c.subscribeTimeout ≤ 0 then 30 * nsPerSecond else c.subscribeTimeout
    hasUnmarshaler := true
    hasSubjectCalculator := true }

/-- `Validate` (subscriber.go lines 157-175): returns the first applicable
error, or none. -/
def SubscriberSubscriptionConfig.Validate (c : SubscriberSubscriptionConfig) : Option String :=
  if c.hasUnmarshaler = false then
    some "SubscriberConfig.Unmarshaler is missing"
  else if c.queueGroup = "" ∧ c.subscribersCount > 1 then
    some ("to set SubscriberConfig.SubscribersCount " ++
      "you need to also set SubscriberConfig.QueueGroup, " ++
      "in other case you will receive duplicated messages")
  else if c.hasSubjectCalculator = false then
    some "SubscriberSubscriptionConfig.SubjectCalculator is required."
  else
    none

/-- The `Subscriber` state the claims are about: its (defaulted) config and
the `closed` flag. -/
structure Subscriber where
  config : SubscriberSubscriptionConfig
  closed : Bool

/-- `NewSubscriberWithNatsConn` (subscriber.go lines 203-236): defaults the
config, validates it, and (when JetStream is enabled) obtains a JetStream
context whose error aborts construction.  `jsErr` stands for the result of
`conn.JetStream(...)`. -/
def NewSubscriberWithNatsConn (config : SubscriberSubscriptionConfig)
    (jsErr : Option String) : Except String Subscriber :=
  match (setDefaults config).Validate with
  | some e => Except.error e
  | none =>
    if (setDefaults config).jetStreamEnabled then
      match jsErr with
      | some e => Except.error e
      | none => Except.ok { config := setDefaults config, closed := false }
    else
      Except.ok { config := setDefaults config, closed := false }

/-- The broker transport calls the coordinator can make on a frame. -/
inductive TransportOp where
  | ackSyncOp
  | ackOp
  | nakOp
  | nakWithDelayOp (d : Duration)
  | termOp
  deriving DecidableEq, Repr

/-- Observable events of one `processMessage` run, in program order. -/
inductive PMEvent where
  | logTrace (s : String)
  | logError (s : String)
  | readMetadata
  | sendOutput (uuid : String)
  | transport (op : TransportOp)
  deriving DecidableEq, Repr

/-- Outcome of the handoff select (subscriber.go lines 342-352): which of the
three cases fires. -/
inductive HandoffOutcome where
  | closingSignal
  | ctxDone
  | delivered
  deriving DecidableEq, Repr

/-- Outcome of the ack-phase select (subscriber.go lines 354-425): which of
the five cases fires. -/
inductive AckOutcome where
  | acked
  | nacked
  | ackTimeout
  | closingSignal
  | ctxDone
  deriving DecidableEq, Repr

/-- `processMessage` (subscriber.go lines 314-426) as a function from the
outcomes of its external interactions to the list of events it performs.
`unmarshalResult` is the result of `s.config.Unmarshaler.Unmarshal(m)`;
`closedFlag` the value read by `s.isClosed()`; `handoff` and `ackSig` the
cases the two selects observe; `transportResult op` the error returned by
the transport call `op` when it is made. -/
def processMessage (cfg : SubscriberSubscriptionConfig) (m : NatsMsg)
    (unmarshalResult : Except String WMessage)
    (closedFlag : Bool) (handoff : HandoffOutcome) (ackSig : AckOutcome)
    (transportResult : TransportOp → Option String) : List PMEvent :=
  let received := [PMEvent.logTrace "Received message"]
  match unmarshalResult with
  | Except.error _ => received ++ [PMEvent.logError "Cannot unmarshal message"]
  | Except.ok msg =>
    let pre := received ++ [PMEvent.logTrace "Unmarshaled message"]
    if closedFlag then pre
    else
      match handoff with
      | HandoffOutcome.closingSignal =>
        pre ++ [PMEvent.logTrace "Closing, message discarded"]
      | HandoffOutcome.ctxDone =>
        pre ++ [PMEvent.logTrace "Context cancelled, message discarded"]
      | HandoffOutcome.delivered =>
        let sent := pre ++ [PMEvent.sendOutput msg.uuid,
          PMEvent.logTrace "Message sent to consumer"]
        match ackSig with
        | AckOutcome.acked =>
          if m.reply = "" then
            sent ++ [PMEvent.logTrace "ack without a reply subject is a no-op"]
          else
            let op := if cfg.ackSync then TransportOp.ackSyncOp else TransportOp.ackOp
            match transportResult op with
            | some _ => sent ++ [PMEvent.transport op, PMEvent.logError "Cannot send ack"]
            | none => sent ++ [PMEvent.transport op, PMEvent.logTrace "Message Acked"]
        | AckOutcome.nacked =>
          if m.reply = "" then
            sent ++ [PMEvent.logTrace "Ignoring nack without reply topic"]
          else
            let nd : Duration × List PMEvent :=
              match cfg.nakDelay with
              | none => (0, [])
              | some policy =>
                match m.metadataResult with
                | Except.error _ =>
                  (0, [PMEvent.readMetadata,
                    PMEvent.logError "Cannot parse nats message metadata, use nak without delay"])
                | Except.ok md => (policy md.numDelivered, [PMEvent.readMetadata])
            let nakDelay := nd.1
            let base := sent ++ nd.2
            if nakDelay = StopTime then
              match transportResult TransportOp.termOp with
              | some _ =>
                base ++ [PMEvent.transport TransportOp.termOp,
                  PMEvent.logError "Cannot send term"]
              | none =>
                base ++ [PMEvent.transport TransportOp.termOp,
                  PMEvent.logTrace "Message Termed via -1 NakDelay calculation"]
            else if nakDelay > 0 then
              match transportResult (TransportOp.nakWithDelayOp nakDelay) with
              | some _ =>
                base ++ [PMEvent.transport (TransportOp.nakWithDelayOp nakDelay),
                  PMEvent.logError "Cannot send nak"]
              | none =>
                base ++ [PMEvent.transport (TransportOp.nakWithDelayOp nakDelay),
                  PMEvent.logTrace "Message Nacked"]
            else
              match transportResult TransportOp.nakOp with
              | some _ =>
                base ++ [PMEvent.transport TransportOp.nakOp,
                  PMEvent.logError "Cannot send nak"]
              | none =>
                base ++ [PMEvent.transport TransportOp.nakOp,
                  PMEvent.logTrace "Message Nacked"]
        | AckOutcome.ackTimeout => sent ++ [PMEvent.logTrace "Ack timeout"]
        | AckOutcome.closingSignal =>
          sent ++ [PMEvent.logTrace "Closing, message discarded before ack"]
        | AckOutcome.ctxDone =>
          sent ++ [PMEvent.logTrace "Context cancelled, message discarded before ack"]

/-- The transport calls recorded in an event list, in order. -/
def transports (evs : List PMEvent) : List TransportOp :=
  evs.filterMap fun e =>
    match e with
    | PMEvent.transport op => some op
    | _ => none

/-- The output-channel sends recorded in an event list, in order. -/
def outputsOf (evs : List PMEvent) : List String :=
  evs.filterMap fun e =>
    match e with
    | PMEvent.sendOutput u => some u
    | _ => none

/-- The number of `Metadata()` reads recorded in an event list. -/
def metadataReads (evs : List PMEvent) : Nat :=
  evs.count PMEvent.readMetadata

/-- The `nakDelay` value the nack branch computes (subscriber.go lines
379-392): zero when no policy is configured or the metadata read fails,
otherwise the policy applied to `NumDelivered`. -/
def nakDelayOf (cfg : SubscriberSubscriptionConfig) (m : NatsMsg) : Duration :=
  match cfg.nakDelay with
  | none => 0
  | some policy =>
    match m.metadataResult with
    | Except.error _ => 0
    | Except.ok md => policy md.numDelivered

/-- Connection-level actions the Subscribe loop performs.  Native
subscription handles are identified by numbers. -/
inductive SubAction where
  | queueSubscribe (idx sub : Nat)
  | unsubscribe (sub : Nat)
  deriving DecidableEq, Repr

/-- The `for i` loop of `Subscribe` (subscriber.go lines 245-275): `res i` is
the result of the i-th `s.subscribe` call.  Returns the connection actions
performed together with the error, if any: on the first failing subscribe the
loop stops, returns the wrapped error, and performs no cleanup of the
already-created subscriptions.  The leading argument is the index of the
iteration, the trailing one the number of iterations left. -/
def subscribeLoop (res : Nat → Except String Nat) : Nat → Nat → List SubAction × Option String
  | _, 0 => ([], none)
  | i, n + 1 =>
    match res i with
    | Except.error e => ([], some ("cannot subscribe: " ++ e))
    | Except.ok s =>
      let r := subscribeLoop res (i + 1) n
      (SubAction.queueSubscribe i s :: r.1, r.2)

/-- `Subscribe` (subscriber.go lines 239-284) restricted to its subscription
loop: runs `SubscribersCount` iterations starting at index 0. -/
def SubscribeModel (cfg : SubscriberSubscriptionConfig) (res : Nat → Except String Nat) :
    List SubAction × Option String :=
  subscribeLoop res 0 cfg.subscribersCount.toNat

/-- The shutdown actions `Close` can perform. -/
inductive CloseAction where
  | closeClosingChan
  | drainConn
  deriving DecidableEq, Repr

/-- `Close` (subscriber.go lines 429-452).  `wgTimedOut` is the result of
`WaitGroupTimeout(outputsWg, CloseTimeout)` (true when the timeout elapsed
first); `drainErr` the result of `conn.Drain()` when it is called.  Returns
the new closed flag, the actions performed, and the returned error. -/
def CloseModel (closed : Bool) (wgTimedOut : Bool) (drainErr : Option String) :
    Bool × List CloseAction × Option String :=
  if closed then (closed, [], none)
  else if wgTimedOut then
    (true, [CloseAction.closeClosingChan], some "output wait group did not finish")
  else
    match drainErr with
    | some e =>
      (true, [CloseAction.closeClosingChan, CloseAction.drainConn],
        some ("cannot close conn: " ++ e))
    | none => (true, [CloseAction.closeClosingChan, CloseAction.drainConn], none)

/-!
Interleaving model for the shutdown race of one Subscribe call with
`SubscribersCount = 1` and one in-flight `processMessage` handler.

The tasks and their program points, straight from subscriber.go:
  * the handler runs `processMessage`; it has unmarshalled the frame, is
    about to run `s.isClosed()` (line 338) and then the handoff select
    (lines 342-352) whose cases are receive-from-`closing`, receive-from-
    `ctx.Done()`, and send-on-`output`;
  * `Close` (lines 429-445) sets `closed` and closes the `closing` channel;
  * the watcher goroutine (lines 262-274) wakes on `closing`, calls
    `Unsubscribe`, and decrements the inner wait group — it does not wait
    for handler callbacks already running inside the nats client;
  * the finisher goroutine (lines 277-281) waits for the inner wait group
    and then closes `output`.

Go semantics modelled: a `select` send case on a closed channel counts as
ready and, when chosen, faults with a send on a closed channel; `select`
chooses among ready cases without preference, so a simultaneously ready
`closing` case does not shield the send case.
-/

/-- Program point of the in-flight handler. -/
inductive HandlerPC where
  | start
  | beforeSelect
  | delivered
  | discarded
  | sentOnClosedChannel
  deriving DecidableEq, Repr

/-- State of the interleaving model. -/
structure LoopState where
  closedFlag : Bool
  closingClosed : Bool
  outputClosed : Bool
  innerWg : Nat
  handler : HandlerPC
  watcherDone : Bool
  finisherDone : Bool
  deriving DecidableEq, Repr

/-- Atomic steps of the interleaving model. -/
inductive LoopStep where
  | handlerCheckClosed
  | closeRun
  | watcherRun
  | finisherRun
  | handlerSelectDeliver
  | handlerSelectClosing
  | handlerSelectSendClosed
  deriving DecidableEq, Repr

/-- One guarded step; `none` when the step is not enabled in `st`. -/
def stepLoop (st : LoopState) : LoopStep → Option LoopState
  | LoopStep.handlerCheckClosed =>
    if st.handler = HandlerPC.start then
      some (if st.closedFlag then { st with handler := HandlerPC.discarded }
        else { st with handler := HandlerPC.beforeSelect })
    else none
  | LoopStep.closeRun =>
    if st.closedFlag = false then
      some { st with closedFlag := true, closingClosed := true }
    else none
  | LoopStep.watcherRun =>
    if st.watcherDone = false ∧ st.closingClosed = true then
      some { st with watcherDone := true, innerWg := st.innerWg - 1 }
    else none
  | LoopStep.finisherRun =>
    if st.finisherDone = false ∧ st.innerWg = 0 then
      some { st with finisherDone := true, outputClosed := true }
    else none
  | LoopStep.handlerSelectDeliver =>
    if st.handler = HandlerPC.beforeSelect ∧ st.outputClosed = false then
      some { st with handler := HandlerPC.delivered }
    else none
  | LoopStep.handlerSelectClosing =>
    if st.handler = HandlerPC.beforeSelect ∧ st.closingClosed = true then
      some { st with handler := HandlerPC.discarded }
    else none
  | LoopStep.handlerSelectSendClosed =>
    if st.handler = HandlerPC.beforeSelect ∧ st.outputClosed = true then
      some { st with handler := HandlerPC.sentOnClosedChannel }
    else none

/-- Run a sequence of steps; `none` when some step is not enabled. -/
def runLoop (st : LoopState) : List LoopStep → Option LoopState
  | [] => some st
  | s :: rest =>
    match stepLoop st s with
    | none => none
    | some st2 => runLoop st2 rest

/-- Initial state: one native subscription (inner wait group at 1), nothing
closed, the handler about to check the closed flag, watcher and finisher
waiting. -/
def initLoopState : LoopState :=
  { closedFlag := false, closingClosed := false, outputClosed := false,
    innerWg := 1, handler := HandlerPC.start,
    watcherDone := false, finisherDone := false }

/-- The schedule exhibiting the race: the handler passes the closed-flag
check, then Close, the watcher and the finisher all run, and the handler
enters its select with `output` already closed. -/
def raceSchedule : List LoopStep :=
  [LoopStep.handlerCheckClosed, LoopStep.closeRun, LoopStep.watcherRun,
    LoopStep.finisherRun, LoopStep.handlerSelectSendClosed]

/-- The state `raceSchedule` reaches from `initLoopState`. -/
def raceFinalState : LoopState :=
  { closedFlag := true, closingClosed := true, outputClosed := true,
    innerWg := 0, handler := HandlerPC.sentOnClosedChannel,
    watcherDone := true, finisherDone := true }

/-! ## Theorems -/

/-- Shared example configuration for witnesses. -/
def baseCfg : SubscriberSubscriptionConfig :=
  { queueGroup := "group", subscribersCount := 2, ackWaitTimeout := 5,
    closeTimeout := 0, subscribeTimeout := 7, hasUnmarshaler := false,
    hasSubjectCalculator := false, ackSync := false, nakDelay := none,
    jetStreamEnabled := false }

/-- Helper: on a config whose unmarshaler and subject calculator are present,
`Validate` reports an error exactly when the queue group is empty and the
subscriber count exceeds one. -/
theorem validate_isSome_iff (c : SubscriberSubscriptionConfig)
    (hu : c.hasUnmarshaler = true) (hs : c.hasSubjectCalculator = true) :
    (c.Validate).isSome = true ↔ (c.queueGroup = "" ∧ c.subscribersCount > 1) := by
  by_cases h : c.queueGroup = "" ∧ c.subscribersCount > 1 <;>
    simp [SubscriberSubscriptionConfig.Validate, hu, hs, h]

/-- C3: after defaulting, Subscriber construction fails validation if and
only if the defaulted configuration has an empty QueueGroup together with
SubscribersCount greater than 1; every defaulted configuration with a
non-empty QueueGroup or with SubscribersCount at most 1 validates. -/
theorem validation_fails_iff_empty_group_many_subs (c : SubscriberSubscriptionConfig) :
    ((setDefaults c).Validate).isSome = true ↔
      ((setDefaults c).queueGroup = "" ∧ (setDefaults c).subscribersCount > 1) := by
  exact validate_isSome_iff (setDefaults c) (by simp [setDefaults]) (by simp [setDefaults])

/-- C3 witness: a defaulted configuration with empty queue group and two
subscribers fails validation. -/
theorem validation_fails_iff_empty_group_many_subs_witness :
    ((setDefaults { baseCfg with queueGroup := "" }).Validate).isSome = true := by
  exact (validation_fails_iff_empty_group_many_subs { baseCfg with queueGroup := "" }).mpr
    (by constructor <;> simp [setDefaults, baseCfg])

/-- C9: after defaulting, each non-positive timeout equals 30 seconds and
each positive timeout is unchanged; construction applies `Validate` to the
defaulted configuration and stores exactly that configuration on success. -/
theorem defaults_thirty_seconds_and_validated (c : SubscriberSubscriptionConfig)
    (jsErr : Option String) :
    ((c.closeTimeout ≤ 0 → (setDefaults c).closeTimeout = 30 * nsPerSecond) ∧
      (0 < c.closeTimeout → (setDefaults c).closeTimeout = c.closeTimeout)) ∧
    ((c.ackWaitTimeout ≤ 0 → (setDefaults c).ackWaitTimeout = 30 * nsPerSecond) ∧
      (0 < c.ackWaitTimeout → (setDefaults c).ackWaitTimeout = c.ackWaitTimeout)) ∧
    ((c.subscribeTimeout ≤ 0 → (setDefaults c).subscribeTimeout = 30 * nsPerSecond) ∧
      (0 < c.subscribeTimeout → (setDefaults c).subscribeTimeout = c.subscribeTimeout)) ∧
    (∀ s, NewSubscriberWithNatsConn c jsErr = Except.ok s →
      s.config = setDefaults c ∧ (setDefaults c).Validate = none) ∧
    (∀ e, (setDefaults c).Validate = some e →
      NewSubscriberWithNatsConn c jsErr = Except.error e) := by
  refine ⟨⟨?_, ?_⟩, ⟨?_, ?_⟩, ⟨?_, ?_⟩, ?_, ?_⟩
  · intro h; simp [setDefaults, h]
  · intro h
    have h2 : ¬ c.closeTimeout ≤ 0 := not_le.mpr h
    simp [setDefaults, h2]
  · intro h; simp [setDefaults, h]
  · intro h
    have h2 : ¬ c.ackWaitTimeout ≤ 0 := not_le.mpr h
    simp [setDefaults, h2]
  · intro h; simp [setDefaults, h]
  · intro h
    have h2 : ¬ c.subscribeTimeout ≤ 0 := not_le.mpr h
    simp [setDefaults, h2]
  · intro s h
    unfold NewSubscriberWithNatsConn at h
    cases hv : (setDefaults c).Validate with
    | some e => rw [hv] at h; cases h
    | none =>
      rw [hv] at h
      refine ⟨?_, rfl⟩
      by_cases hjs : (setDefaults c).jetStreamEnabled = true
      · rw [if_pos hjs] at h
        cases jsErr with
        | some e => cases h
        | none => cases h; rfl
      · rw [if_neg hjs] at h
        cases h; rfl
  · intro e hv
    unfold NewSubscriberWithNatsConn
    rw [hv]

/-- C9 witness: a configuration with a zero close timeout and positive other
timeouts defaults the former to 30 seconds, keeps the latter, and
construction succeeds storing the defaulted configuration. -/
theorem defaults_thirty_seconds_and_validated_witness :
    ((0 : Duration) ≤ 0 ∧ (setDefaults baseCfg).closeTimeout = 30 * nsPerSecond) ∧
    ((0 : Duration) < 7 ∧ (setDefaults baseCfg).subscribeTimeout = 7) ∧
    ((setDefaults baseCfg).Validate = none) := by
  have h := defaults_thirty_seconds_and_validated baseCfg none
  refine ⟨⟨by decide, h.1.1 (by decide)⟩, ⟨by decide, h.2.2.1.2 (by decide)⟩, ?_⟩
  exact (h.2.2.2.1 { config := setDefaults baseCfg, closed := false } rfl).2

/-- C5: the first Close transitions the subscriber to the closed state, a
Close on an already-closed subscriber performs no shutdown actions and
returns success, and under a clean first shutdown (no wait-group timeout, no
drain error) Close(); Close() returns success twice. -/
theorem close_idempotent (wgT1 wgT2 : Bool) (d1 d2 : Option String) :
    (CloseModel false wgT1 d1).1 = true ∧
    (CloseModel (CloseModel false wgT1 d1).1 wgT2 d2 =
      ((CloseModel false wgT1 d1).1, [], none)) ∧
    (wgT1 = false → d1 = none →
      (CloseModel false wgT1 d1).2.2 = none ∧
      (CloseModel (CloseModel false wgT1 d1).1 wgT2 d2).2.2 = none) := by
  cases wgT1 <;> cases d1 <;> simp [CloseModel]

/-- C5 witness: a clean Close followed by a second Close returns success
twice. -/
theorem close_idempotent_witness :
    (CloseModel false false none).2.2 = none ∧
    (CloseModel (CloseModel false false none).1 false none).2.2 = none := by
  exact (close_idempotent false false none none).2.2 rfl rfl

/-- C4: on wait-group timeout, Close returns the unfinished-work error and
does not drain the connection; otherwise it drains and returns the wrapped
drain error or success. -/
theorem close_timeout_skips_drain (wgTimedOut : Bool) (drainErr : Option String) :
    (wgTimedOut = true →
      (CloseModel false wgTimedOut drainErr).2.2 = some "output wait group did not finish" ∧
      CloseAction.drainConn ∉ (CloseModel false wgTimedOut drainErr).2.1) ∧
    (wgTimedOut = false →
      CloseAction.drainConn ∈ (CloseModel false wgTimedOut drainErr).2.1 ∧
      (CloseModel false wgTimedOut drainErr).2.2 =
        Option.map (fun e => "cannot close conn: " ++ e) drainErr) := by
  cases wgTimedOut <;> cases drainErr <;> simp [CloseModel]

/-- C4 witness: with a timed-out wait group the error is returned and no
drain happens; without a timeout and a failing drain the wrapped drain error
is returned. -/
theorem close_timeout_skips_drain_witness :
    ((CloseModel false true none).2.2 = some "output wait group did not finish" ∧
      CloseAction.drainConn ∉ (CloseModel false true none).2.1) ∧
    ((CloseModel false false (some "x")).2.2 = some ("cannot close conn: " ++ "x")) := by
  refine ⟨(close_timeout_skips_drain true none).1 rfl, ?_⟩
  exact ((close_timeout_skips_drain false (some "x")).2 rfl).2

/-- C1 (refuted by the code): there is a schedule of the shutdown tasks in
which the handler of an in-flight message reaches its handoff select only
after the finisher has already closed the output channel, so the select's
send case — ready on a closed channel — can be chosen and the handler sends
on the channel after it is closed, exactly the risk the source notes beside
the select. -/
theorem handler_can_send_after_output_closed :
    ∃ st, runLoop initLoopState raceSchedule = some st ∧
      st.outputClosed = true ∧ st.handler = HandlerPC.sentOnClosedChannel := by
  refine ⟨raceFinalState, by decide, rfl, rfl⟩

/-- C6: on the acked signal, an empty reply subject means no transport call
is made; otherwise exactly one ack is sent, synchronous when `AckSync` is
set, asynchronous otherwise. -/
theorem acked_dispatch (cfg : SubscriberSubscriptionConfig) (m : NatsMsg)
    (msg : WMessage) (tr : TransportOp → Option String) :
    (m.reply = "" →
      transports (processMessage cfg m (Except.ok msg) false
        HandoffOutcome.delivered AckOutcome.acked tr) = []) ∧
    (m.reply ≠ "" → cfg.ackSync = true →
      transports (processMessage cfg m (Except.ok msg) false
        HandoffOutcome.delivered AckOutcome.acked tr) = [TransportOp.ackSyncOp]) ∧
    (m.reply ≠ "" → cfg.ackSync = false →
      transports (processMessage cfg m (Except.ok msg) false
        HandoffOutcome.delivered AckOutcome.acked tr) = [TransportOp.ackOp]) := by
  refine ⟨?_, ?_, ?_⟩
  · intro hr
    simp [processMessage, transports, hr]
  · intro hr hsync
    cases htr : tr TransportOp.ackSyncOp <;>
      simp [processMessage, transports, hr, hsync, htr]
  · intro hr hsync
    cases htr : tr TransportOp.ackOp <;>
      simp [processMessage, transports, hr, hsync, htr]

/-- C6 witness: with a reply subject and `AckSync` set, exactly a synchronous
ack is sent; with `AckSync` unset, exactly an asynchronous ack. -/
theorem acked_dispatch_witness :
    transports (processMessage { baseCfg with ackSync := true }
      { reply := "r", metadataResult := Except.error "no md" } (Except.ok { uuid := "u" })
      false HandoffOutcome.delivered AckOutcome.acked (fun _ => none)) =
        [TransportOp.ackSyncOp] ∧
    transports (processMessage baseCfg
      { reply := "r", metadataResult := Except.error "no md" } (Except.ok { uuid := "u" })
      false HandoffOutcome.delivered AckOutcome.acked (fun _ => none)) =
        [TransportOp.ackOp] := by
  constructor
  · exact (acked_dispatch { baseCfg with ackSync := true }
      { reply := "r", metadataResult := Except.error "no md" } { uuid := "u" }
      (fun _ => none)).2.1 (by decide) rfl
  · exact (acked_dispatch baseCfg
      { reply := "r", metadataResult := Except.error "no md" } { uuid := "u" }
      (fun _ => none)).2.2 (by decide) rfl

/-- C8: on unmarshal failure the coordinator logs the error and returns at
once: nothing is sent on the output channel and no transport call is made. -/
theorem unmarshal_failure_drops (cfg : SubscriberSubscriptionConfig) (m : NatsMsg)
    (e : String) (closedFlag : Bool) (handoff : HandoffOutcome) (ackSig : AckOutcome)
    (tr : TransportOp → Option String) :
    processMessage cfg m (Except.error e) closedFlag handoff ackSig tr =
      [PMEvent.logTrace "Received message", PMEvent.logError "Cannot unmarshal message"] ∧
    transports (processMessage cfg m (Except.error e) closedFlag handoff ackSig tr) = [] ∧
    outputsOf (processMessage cfg m (Except.error e) closedFlag handoff ackSig tr) = [] := by
  refine ⟨rfl, rfl, rfl⟩

/-- C10: with no delay policy configured, a nacked frame with a reply subject
gets exactly an immediate Nak — never a Term, never a NakWithDelay — and the
frame metadata is never read. -/
theorem no_policy_immediate_nak (cfg : SubscriberSubscriptionConfig) (m : NatsMsg)
    (msg : WMessage) (tr : TransportOp → Option String)
    (hpol : cfg.nakDelay = none) (hr : m.reply ≠ "") :
    transports (processMessage cfg m (Except.ok msg) false
      HandoffOutcome.delivered AckOutcome.nacked tr) = [TransportOp.nakOp] ∧
    metadataReads (processMessage cfg m (Except.ok msg) false
      HandoffOutcome.delivered AckOutcome.nacked tr) = 0 := by
  cases htr : tr TransportOp.nakOp <;>
    simp [processMessage, transports, metadataReads, hpol, hr, htr, StopTime,
      List.count_cons]

/-- C10 witness: a concrete nil-policy configuration and replied frame yield
exactly one immediate Nak and no metadata read. -/
theorem no_policy_immediate_nak_witness :
    transports (processMessage baseCfg
      { reply := "r", metadataResult := Except.ok { numDelivered := 3 } }
      (Except.ok { uuid := "u" }) false HandoffOutcome.delivered AckOutcome.nacked
      (fun _ => none)) = [TransportOp.nakOp] ∧
    metadataReads (processMessage baseCfg
      { reply := "r", metadataResult := Except.ok { numDelivered := 3 } }
      (Except.ok { uuid := "u" }) false HandoffOutcome.delivered AckOutcome.nacked
      (fun _ => none)) = 0 := by
  exact no_policy_immediate_nak baseCfg
    { reply := "r", metadataResult := Except.ok { numDelivered := 3 } }
    { uuid := "u" } (fun _ => none) rfl (by decide)

/-- C2: on the nacked signal, an empty reply subject means no transport call;
otherwise the computed delay (zero without a policy or on a metadata-read
failure, else the policy at `NumDelivered`) dispatches the call: `StopTime`
sends Term, a positive delay sends NakWithDelay of that delay, anything else
sends an immediate Nak; a metadata-read failure under a configured policy is
logged and leaves the delay at zero. -/
theorem nacked_dispatch (cfg : SubscriberSubscriptionConfig) (m : NatsMsg)
    (msg : WMessage) (tr : TransportOp → Option String) :
    (m.reply = "" →
      transports (processMessage cfg m (Except.ok msg) false
        HandoffOutcome.delivered AckOutcome.nacked tr) = []) ∧
    (m.reply ≠ "" → nakDelayOf cfg m = StopTime →
      transports (processMessage cfg m (Except.ok msg) false
        HandoffOutcome.delivered AckOutcome.nacked tr) = [TransportOp.termOp]) ∧
    (m.reply ≠ "" → nakDelayOf cfg m ≠ StopTime → 0 < nakDelayOf cfg m →
      transports (processMessage cfg m (Except.ok msg) false
        HandoffOutcome.delivered AckOutcome.nacked tr) =
          [TransportOp.nakWithDelayOp (nakDelayOf cfg m)]) ∧
    (m.reply ≠ "" → nakDelayOf cfg m ≠ StopTime → ¬ 0 < nakDelayOf cfg m →
      transports (processMessage cfg m (Except.ok msg) false
        HandoffOutcome.delivered AckOutcome.nacked tr) = [TransportOp.nakOp]) ∧
    (∀ policy e, cfg.nakDelay = some policy → m.metadataResult = Except.error e →
      nakDelayOf cfg m = 0 ∧
      (m.reply ≠ "" →
        PMEvent.logError "Cannot parse nats message metadata, use nak without delay" ∈
          processMessage cfg m (Except.ok msg) false
            HandoffOutcome.delivered AckOutcome.nacked tr)) := by
  refine ⟨?_, ?_, ?_, ?_, ?_⟩
  · intro hr
    simp [processMessage, transports, hr]
  · intro hr hst
    cases hpol : cfg.nakDelay with
    | none => simp [nakDelayOf, hpol, StopTime] at hst
    | some policy =>
      cases hmd : m.metadataResult with
      | error e =>
        rw [nakDelayOf, hpol, hmd] at hst
        simp [StopTime] at hst
      | ok md =>
        have hst2 : policy md.numDelivered = StopTime := by
          simpa [nakDelayOf, hpol, hmd] using hst
        cases htr : tr TransportOp.termOp <;>
          simp [processMessage, transports, hr, hpol, hmd, hst2, htr]
  · intro hr hst hpos
    cases hpol : cfg.nakDelay with
    | none => simp [nakDelayOf, hpol] at hpos
    | some policy =>
      cases hmd : m.metadataResult with
      | error e =>
        rw [nakDelayOf, hpol, hmd] at hpos
        simp at hpos
      | ok md =>
        have hst2 : ¬ policy md.numDelivered = StopTime := by
          simpa [nakDelayOf, hpol, hmd] using hst
        have hpos2 : 0 < policy md.numDelivered := by
          simpa [nakDelayOf, hpol, hmd] using hpos
        rw [nakDelayOf, hpol, hmd]
        cases htr : tr (TransportOp.nakWithDelayOp (policy md.numDelivered)) <;>
          simp [processMessage, transports, hr, hpol, hmd, hst2, hpos2, htr]
  · intro hr hst hpos
    cases hpol : cfg.nakDelay with
    | none =>
      cases htr : tr TransportOp.nakOp <;>
        simp [processMessage, transports, hr, hpol, htr, StopTime]
    | some policy =>
      cases hmd : m.metadataResult with
      | error e =>
        cases htr : tr TransportOp.nakOp <;>
          simp [processMessage, transports, hr, hpol, hmd, htr, StopTime]
      | ok md =>
        have hst2 : ¬ policy md.numDelivered = StopTime := by
          simpa [nakDelayOf, hpol, hmd] using hst
        have hpos2 : ¬ 0 < policy md.numDelivered := by
          simpa [nakDelayOf, hpol, hmd] using hpos
        cases htr : tr TransportOp.nakOp <;>
          simp [processMessage, transports, hr, hpol, hmd, hst2, hpos2, htr]
  · intro policy e hpol hmd
    refine ⟨by simp [nakDelayOf, hpol, hmd], ?_⟩
    intro hr
    by_cases hz : (0 : Duration) = StopTime
    · simp [StopTime] at hz
    · cases htr : tr TransportOp.nakOp <;>
        simp [processMessage, hr, hpol, hmd, htr, StopTime]

/-- C2 witness: a policy returning 5 ns at the frame's second delivery sends
exactly NakWithDelay 5; the same frame with a policy returning `StopTime`
sends exactly Term. -/
theorem nacked_dispatch_witness :
    transports (processMessage { baseCfg with nakDelay := some fun _ => 5 }
      { reply := "r", metadataResult := Except.ok { numDelivered := 2 } }
      (Except.ok { uuid := "u" }) false HandoffOutcome.delivered AckOutcome.nacked
      (fun _ => none)) = [TransportOp.nakWithDelayOp 5] ∧
    transports (processMessage { baseCfg with nakDelay := some fun _ => StopTime }
      { reply := "r", metadataResult := Except.ok { numDelivered := 2 } }
      (Except.ok { uuid := "u" }) false HandoffOutcome.delivered AckOutcome.nacked
      (fun _ => none)) = [TransportOp.termOp] := by
  constructor
  · exact (nacked_dispatch { baseCfg with nakDelay := some fun _ => 5 }
      { reply := "r", metadataResult := Except.ok { numDelivered := 2 } }
      { uuid := "u" } (fun _ => none)).2.2.1 (by decide) (by decide) (by decide)
  · exact (nacked_dispatch { baseCfg with nakDelay := some fun _ => StopTime }
      { reply := "r", metadataResult := Except.ok { numDelivered := 2 } }
      { uuid := "u" } (fun _ => none)).2.1 (by decide) (by decide)

/-- Helper: the subscribe loop, started at index `i` for `n` iterations, on
a run whose first failure is at offset `j < n`, returns the wrapped error and
has registered exactly the `j` earlier subscriptions. -/
theorem subscribeLoop_failure (res : Nat → Except String Nat) (f : Nat → Nat)
    (e : String) :
    ∀ n i j, j < n → (∀ k, k < j → res (i + k) = Except.ok (f (i + k))) →
      res (i + j) = Except.error e →
      subscribeLoop res i n =
        ((List.range j).map (fun k => SubAction.queueSubscribe (i + k) (f (i + k))),
          some ("cannot subscribe: " ++ e)) := by
  intro n
  induction n with
  | zero => intro i j hj; exact absurd hj (Nat.not_lt_zero j)
  | succ n ih =>
    intro i j hj hok herr
    cases j with
    | zero =>
      have h0 : res i = Except.error e := by simpa using herr
      simp [subscribeLoop, h0]
    | succ k =>
      have h0 : res i = Except.ok (f i) := by
        have := hok 0 (Nat.succ_pos k)
        simpa using this
      have ihr := ih (i + 1) k (by omega)
        (fun k2 hk2 => by
          have := hok (k2 + 1) (by omega)
          have harith : i + (k2 + 1) = i + 1 + k2 := by omega
          rwa [harith] at this)
        (by
          have harith : i + (k + 1) = i + 1 + k := by omega
          rwa [harith] at herr)
      have hlist :
          SubAction.queueSubscribe i (f i) ::
              (List.range k).map
                (fun k2 => SubAction.queueSubscribe (i + 1 + k2) (f (i + 1 + k2))) =
            (List.range (k + 1)).map
              (fun k2 => SubAction.queueSubscribe (i + k2) (f (i + k2))) := by
        rw [List.range_succ_eq_map, List.map_cons, List.map_map]
        simp only [List.cons.injEq]
        refine ⟨by simp, ?_⟩
        apply List.map_congr_left
        intro a _
        have h3 : i + 1 + a = i + (a + 1) := by omega
        show SubAction.queueSubscribe (i + 1 + a) (f (i + 1 + a)) =
          SubAction.queueSubscribe (i + (a + 1)) (f (i + (a + 1)))
        rw [h3]
      simp only [subscribeLoop, h0, ihr, ← hlist]

/-- C7: when the `j`-th subscribe call of a Subscribe fails after `j`
successful ones, Subscribe returns the wrapped error, exactly the `j`
already-created native subscriptions are registered, and no unsubscribe is
performed for them. -/
theorem subscribe_fail_fast (cfg : SubscriberSubscriptionConfig)
    (res : Nat → Except String Nat) (f : Nat → Nat) (e : String) (j : Nat)
    (hj : j < cfg.subscribersCount.toNat)
    (hok : ∀ k, k < j → res k = Except.ok (f k))
    (herr : res j = Except.error e) :
    (SubscribeModel cfg res).2 = some ("cannot subscribe: " ++ e) ∧
    (SubscribeModel cfg res).1 =
      (List.range j).map (fun k => SubAction.queueSubscribe k (f k)) ∧
    ∀ s, SubAction.unsubscribe s ∉ (SubscribeModel cfg res).1 := by
  have h := subscribeLoop_failure res f e cfg.subscribersCount.toNat 0 j hj
    (fun k hk => by simpa using hok k hk) (by simpa using herr)
  unfold SubscribeModel
  rw [h]
  refine ⟨rfl, by simp, ?_⟩
  intro s hs
  simp at hs

/-- C7 witness: with two requested subscribers, success at index 0 and
failure at index 1, Subscribe returns the wrapped error and exactly the one
created subscription is registered, with no unsubscribe. -/
theorem subscribe_fail_fast_witness :
    (SubscribeModel baseCfg (fun i => if i = 0 then Except.ok 7 else Except.error "boom")).2 =
      some ("cannot subscribe: " ++ "boom") ∧
    (SubscribeModel baseCfg (fun i => if i = 0 then Except.ok 7 else Except.error "boom")).1 =
      [SubAction.queueSubscribe 0 7] := by
  have h := subscribe_fail_fast baseCfg
    (fun i => if i = 0 then Except.ok 7 else Except.error "boom") (fun _ => 7) "boom" 1
    (by decide)
    (fun k hk => by interval_cases k; rfl)
    (by rfl)
  refine ⟨h.1, ?_⟩
  rw [h.2.1]
  rfl

end WatermillNats
